import Mathlib

/-!
Shallow embedding of `src/vcd_cli/network.py` (vcd-cli network commands).

Each click command handler is embedded as a pure function from its parsed
arguments and an environment (session state, interactive prompt answer, and
oracles for the remote SDK calls) to an `Invocation` record: the ordered trace
of observable events (prompts, session restorations, remote calls), the lines
written to the success output stream, the lines written to the error stream,
and the process exit code.

The helpers `restore_session`, `stdout`, `stderr` (from `vcd_cli.utils`) and
`abort_if_false` (from `vcd_cli.vcd`) are code of this repository that is not
under `src/`; they are modelled from the spec where marked. The pyvcloud SDK
(`Platform`, `VDC`) and the remote server are external collaborators, modelled
as oracles in the environment.
-/

/-- Request payload of `vdc.create_directly_connected_vdc_network`, built
field-for-field from the handler arguments of `create_direct_network`. -/
structure DirectNetworkSpec where
  network_name : String
  parent_network_name : String
  description : String
  is_shared : Bool
deriving DecidableEq, Repr

/-- Request payload of `vdc.create_isolated_vdc_network`, built field-for-field
from the handler arguments of `create_isolated_network`. -/
structure IsolatedNetworkSpec where
  network_name : String
  gateway_ip : String
  netmask : String
  description : String
  primary_dns_ip : Option String
  secondary_dns_ip : Option String
  dns_suffix : Option String
  ip_range_start : Option String
  ip_range_end : Option String
  is_dhcp_enabled : Bool
  default_lease_time : Option String
  max_lease_time : Option String
  dhcp_ip_range_start : Option String
  dhcp_ip_range_end : Option String
  is_shared : Bool
deriving DecidableEq, Repr

/-- Request payload of `platform.create_external_network`, built field-for-field
from the handler arguments of `create_external_network`. -/
structure ExternalNetworkSpec where
  name : String
  vim_server_name : String
  port_group_names : List String
  gateway_ip : String
  netmask : String
  ip_ranges : List String
  description : String
  primary_dns_ip : Option String
  secondary_dns_ip : Option String
  dns_suffix : Option String
deriving DecidableEq, Repr

/-- One remote SDK call, with its full request payload. -/
inductive RemoteCall where
  | createDirect (spec : DirectNetworkSpec)
  | createIsolated (spec : IsolatedNetworkSpec)
  | createExternal (spec : ExternalNetworkSpec)
  | listExternalNets
  | listDirectNets
  | listIsolatedNets
  | deleteDirect (name : String) (force : Bool)
  | deleteIsolated (name : String) (force : Bool)
  | deleteExternal (name : String)
  | updateExternal (name : String) (new_name : Option String)
      (new_description : Option String)
deriving DecidableEq, Repr

/-- Observable events of one command invocation, in order of occurrence. -/
inductive Event where
  | prompt (message : String)
  | sessionRestore (vdc_required : Bool)
  | remote (call : RemoteCall)
deriving DecidableEq, Repr

/-- Error taxonomy of the spec; each value renders as one single-line message
on the error stream. -/
inductive VcdError where
  | authFailure
  | noVdcSelected
  | validationError (missing_option : String)
  | remoteRejected (message : String)
deriving DecidableEq, Repr

/-- Minimal projection used by the list commands: a record holding exactly the
`name` field (`result.append({'name': net.get('name')})`). -/
structure NetworkSummary where
  name : String
deriving DecidableEq, Repr

/-- One line written to the success output stream by `stdout`. -/
inductive OutLine where
  | task (handle : String)
  | records (rows : List NetworkSummary)
  | message (text : String)
deriving DecidableEq, Repr

/-- An element of the remote enumeration result for the list commands: it has a
`name` attribute read via `.get('name')` plus further attributes the code
ignores. -/
structure RemoteRecord where
  name : String
  attrs : List (String × String)
deriving DecidableEq, Repr

/-- The environment of one invocation: cached-session state, the answer the
user would give to an interactive prompt, and one oracle per remote SDK call.
Oracles return `Except`: `.error` is an exception raised by the SDK call,
`.ok` carries the value the handler goes on to print (for the create and
update commands this is the first queued task the code extracts from the
returned entity). -/
structure Env where
  sessionValid : Bool
  vdc_href : Option String
  promptAnswer : Bool
  create_directly_connected_vdc_network : DirectNetworkSpec → Except String String
  create_isolated_vdc_network : IsolatedNetworkSpec → Except String String
  create_external_network : ExternalNetworkSpec → Except String String
  list_external_networks : Except String (List RemoteRecord)
  list_orgvdc_direct_networks : Except String (List RemoteRecord)
  list_orgvdc_isolated_networks : Except String (List RemoteRecord)
  delete_direct_orgvdc_network : String → Bool → Except String String
  delete_isolated_orgvdc_network : String → Bool → Except String String
  delete_external_network : String → Except String String
  update_external_network : String → Option String → Option String →
      Except String String

/-- Result of one command invocation. -/
structure Invocation where
  events : List Event
  outLines : List OutLine
  errLines : List VcdError
  exitCode : Nat
deriving DecidableEq, Repr

/-- The remote calls issued during an invocation, in order. -/
def Invocation.remoteCalls (inv : Invocation) : List RemoteCall :=
  inv.events.filterMap fun e =>
    match e with
    | .remote c => some c
    | _ => none

/-- Whether an interactive confirmation prompt was shown during an
invocation. -/
def Invocation.prompted (inv : Invocation) : Bool :=
  inv.events.any fun e =>
    match e with
    | .prompt _ => true
    | _ => false

/-- Modelled from the spec: `restore_session` from `vcd_cli.utils` (not under
src/) re-establishes the cached session; it fails with an authentication error
when the session is invalid, and, when a selected virtual datacenter is
required, fails with `NoVdcSelected` when none is selected. -/
def restore_session (env : Env) (vdc_required : Bool) : Except VcdError Unit :=
  if !env.sessionValid then
    Except.error VcdError.authFailure
  else if vdc_required && env.vdc_href.isNone then
    Except.error VcdError.noVdcSelected
  else
    Except.ok ()

/-- Modelled from the spec: `stderr` from `vcd_cli.utils` (not under src/)
converts a caught failure into a single-line message on the error stream and
terminates the invocation with a non-zero exit status. -/
def stderrInvocation (events : List Event) (e : VcdError) : Invocation :=
  { events := events, outLines := [], errLines := [e], exitCode := 1 }

/-- Handler body of `vcd network direct create` (`create_direct_network`). -/
def create_direct_network (env : Env) (name parent_network_name
    description : String) (is_shared : Bool) : Invocation :=
  match restore_session env true with
  | .error e => stderrInvocation [.sessionRestore true] e
  | .ok _ =>
    let spec : DirectNetworkSpec :=
      { network_name := name, parent_network_name := parent_network_name,
        description := description, is_shared := is_shared }
    let events := [Event.sessionRestore true, Event.remote (.createDirect spec)]
    match env.create_directly_connected_vdc_network spec with
    | .error m => stderrInvocation events (.remoteRejected m)
    | .ok task =>
      { events := events, outLines := [.task task], errLines := [],
        exitCode := 0 }

/-- Handler body of `vcd network isolated create`
(`create_isolated_network`). -/
def create_isolated_network (env : Env) (name gateway_ip netmask
    description : String) (primary_dns_ip secondary_dns_ip dns_suffix
    ip_range_start ip_range_end : Option String) (is_dhcp_enabled : Bool)
    (default_lease_time max_lease_time dhcp_ip_range_start
    dhcp_ip_range_end : Option String) (is_shared : Bool) : Invocation :=
  match restore_session env true with
  | .error e => stderrInvocation [.sessionRestore true] e
  | .ok _ =>
    let spec : IsolatedNetworkSpec :=
      { network_name := name, gateway_ip := gateway_ip, netmask := netmask,
        description := description, primary_dns_ip := primary_dns_ip,
        secondary_dns_ip := secondary_dns_ip, dns_suffix := dns_suffix,
        ip_range_start := ip_range_start, ip_range_end := ip_range_end,
        is_dhcp_enabled := is_dhcp_enabled,
        default_lease_time := default_lease_time,
        max_lease_time := max_lease_time,
        dhcp_ip_range_start := dhcp_ip_range_start,
        dhcp_ip_range_end := dhcp_ip_range_end, is_shared := is_shared }
    let events :=
      [Event.sessionRestore true, Event.remote (.createIsolated spec)]
    match env.create_isolated_vdc_network spec with
    | .error m => stderrInvocation events (.remoteRejected m)
    | .ok task =>
      { events := events, outLines := [.task task], errLines := [],
        exitCode := 0 }

/-- Handler body of `vcd network external create`
(`create_external_network`). -/
def create_external_network (env : Env) (name vc_name : String)
    (port_group : List String) (gateway_ip netmask : String)
    (ip_range : List String) (description : String)
    (primary_dns_ip secondary_dns_ip dns_suffix : Option String) :
    Invocation :=
  match restore_session env false with
  | .error e => stderrInvocation [.sessionRestore false] e
  | .ok _ =>
    let spec : ExternalNetworkSpec :=
      { name := name, vim_server_name := vc_name,
        port_group_names := port_group, gateway_ip := gateway_ip,
        netmask := netmask, ip_ranges := ip_range,
        description := description, primary_dns_ip := primary_dns_ip,
        secondary_dns_ip := secondary_dns_ip, dns_suffix := dns_suffix }
    let events :=
      [Event.sessionRestore false, Event.remote (.createExternal spec)]
    match env.create_external_network spec with
    | .error m => stderrInvocation events (.remoteRejected m)
    | .ok task =>
      { events := events,
        outLines := [.task task,
          .message "External network created successfully."],
        errLines := [], exitCode := 0 }

/-- Handler body of `vcd network external list` (`list_external_networks`). -/
def list_external_networks (env : Env) : Invocation :=
  match restore_session env false with
  | .error e => stderrInvocation [.sessionRestore false] e
  | .ok _ =>
    let events := [Event.sessionRestore false, Event.remote .listExternalNets]
    match env.list_external_networks with
    | .error m => stderrInvocation events (.remoteRejected m)
    | .ok ext_nets =>
      let result := ext_nets.map fun ext_net =>
        ({ name := ext_net.name } : NetworkSummary)
      { events := events, outLines := [.records result], errLines := [],
        exitCode := 0 }

/-- Handler body of `vcd network direct list` (`list_direct_networks`). -/
def list_direct_networks (env : Env) : Invocation :=
  match restore_session env true with
  | .error e => stderrInvocation [.sessionRestore true] e
  | .ok _ =>
    let events := [Event.sessionRestore true, Event.remote .listDirectNets]
    match env.list_orgvdc_direct_networks with
    | .error m => stderrInvocation events (.remoteRejected m)
    | .ok direct_nets =>
      let result := direct_nets.map fun direct_net =>
        ({ name := direct_net.name } : NetworkSummary)
      { events := events, outLines := [.records result], errLines := [],
        exitCode := 0 }

/-- Handler body of `vcd network isolated list` (`list_isolated_networks`). -/
def list_isolated_networks (env : Env) : Invocation :=
  match restore_session env true with
  | .error e => stderrInvocation [.sessionRestore true] e
  | .ok _ =>
    let events := [Event.sessionRestore true, Event.remote .listIsolatedNets]
    match env.list_orgvdc_isolated_networks with
    | .error m => stderrInvocation events (.remoteRejected m)
    | .ok isolated_nets =>
      let result := isolated_nets.map fun isolated_net =>
        ({ name := isolated_net.name } : NetworkSummary)
      { events := events, outLines := [.records result], errLines := [],
        exitCode := 0 }

/-- Handler body of `vcd network direct delete` (`delete_direct_networks`),
after argument parsing (the `--yes` confirmation happens during parsing, see
`run_delete_gate`). -/
def delete_direct_networks (env : Env) (name : String) (force : Bool) :
    Invocation :=
  match restore_session env true with
  | .error e => stderrInvocation [.sessionRestore true] e
  | .ok _ =>
    let events :=
      [Event.sessionRestore true, Event.remote (.deleteDirect name force)]
    match env.delete_direct_orgvdc_network name force with
    | .error m => stderrInvocation events (.remoteRejected m)
    | .ok delete_task =>
      { events := events, outLines := [.task delete_task], errLines := [],
        exitCode := 0 }

/-- Handler body of `vcd network isolated delete`
(`delete_isolated_networks`), after argument parsing. -/
def delete_isolated_networks (env : Env) (name : String) (force : Bool) :
    Invocation :=
  match restore_session env true with
  | .error e => stderrInvocation [.sessionRestore true] e
  | .ok _ =>
    let events :=
      [Event.sessionRestore true, Event.remote (.deleteIsolated name force)]
    match env.delete_isolated_orgvdc_network name force with
    | .error m => stderrInvocation events (.remoteRejected m)
    | .ok delete_task =>
      { events := events, outLines := [.task delete_task], errLines := [],
        exitCode := 0 }

/-- Handler body of `vcd network external delete`
(`delete_external_network`). The source declares no confirmation option on
this command: the handler issues the delete call directly. -/
def delete_external_network (env : Env) (name : String) : Invocation :=
  match restore_session env false with
  | .error e => stderrInvocation [.sessionRestore false] e
  | .ok _ =>
    let events :=
      [Event.sessionRestore false, Event.remote (.deleteExternal name)]
    match env.delete_external_network name with
    | .error m => stderrInvocation events (.remoteRejected m)
    | .ok task =>
      { events := events,
        outLines := [.task task,
          .message "External network deleted successfully."],
        errLines := [], exitCode := 0 }

/-- Handler body of `vcd network external update`
(`update_external_network`). -/
def update_external_network (env : Env) (name : String)
    (new_name new_description : Option String) : Invocation :=
  match restore_session env false with
  | .error e => stderrInvocation [.sessionRestore false] e
  | .ok _ =>
    let events :=
      [Event.sessionRestore false,
       Event.remote (.updateExternal name new_name new_description)]
    match env.update_external_network name new_name new_description with
    | .error m => stderrInvocation events (.remoteRejected m)
    | .ok task =>
      { events := events,
        outLines := [.task task,
          .message "External network updated successfully."],
        errLines := [], exitCode := 0 }

/-- The prompt text declared on the `--yes` option of the direct and isolated
delete commands. -/
def confirmPromptText : String :=
  "Are you sure you want to delete the OrgVdc Network?"

/-- Modelled from the spec: interactive confirmation for the `--yes` option
(click prompting plus `abort_if_false` from `vcd_cli.vcd`, not under src/).
When `--yes` is supplied the handler runs without a prompt; otherwise the user
is prompted while the arguments are parsed, and a negative answer aborts with
a neutral (non-error) exit before the handler body, session restoration or any
remote contact. -/
def run_delete_gate (env : Env) (yes : Bool) (handler : Invocation) :
    Invocation :=
  if yes then handler
  else if env.promptAnswer then
    { handler with events := Event.prompt confirmPromptText :: handler.events }
  else
    { events := [Event.prompt confirmPromptText], outLines := [],
      errLines := [], exitCode := 0 }

/-- CLI-level arguments of `vcd network direct create`: `none` means the
option was omitted on the command line (click defaults: `description`
defaults to the empty string, the shared flag defaults to false). -/
structure DirectCreateCli where
  name : String
  parent_network_name : String
  description : Option String
  is_shared : Option Bool
deriving DecidableEq, Repr

/-- CLI-level arguments of `vcd network isolated create`: `none` means the
option was omitted on the command line. -/
structure IsolatedCreateCli where
  name : String
  gateway_ip : String
  netmask : String
  description : Option String
  primary_dns_ip : Option String
  secondary_dns_ip : Option String
  dns_suffix : Option String
  ip_range_start : Option String
  ip_range_end : Option String
  is_dhcp_enabled : Option Bool
  default_lease_time : Option String
  max_lease_time : Option String
  dhcp_ip_range_start : Option String
  dhcp_ip_range_end : Option String
  is_shared : Option Bool
deriving DecidableEq, Repr

/-- CLI-level arguments of `vcd network external create`: the repeatable
options `--port-group` and `--ip-range` collect their occurrences in command
line order; `none` means an optional option was omitted. -/
structure ExternalCreateCli where
  name : String
  vc_name : String
  port_group : List String
  gateway_ip : String
  netmask : String
  ip_range : List String
  description : Option String
  primary_dns_ip : Option String
  secondary_dns_ip : Option String
  dns_suffix : Option String
deriving DecidableEq, Repr

/-- Click option processing for `external create` as declared in the source:
`--port-group` and `--ip-range` are `required=True, multiple=True`, and the
options are checked in declaration order, so zero occurrences of either is a
missing-option usage error raised before the handler body runs. -/
def parse_external_create (cli : ExternalCreateCli) : Except VcdError Unit :=
  if cli.port_group = [] then
    Except.error (VcdError.validationError "--port-group")
  else if cli.ip_range = [] then
    Except.error (VcdError.validationError "--ip-range")
  else
    Except.ok ()

/-- Modelled from the spec: a missing required argument is a validation error
reported as a single-line message on the error stream with a non-zero exit
status (click uses exit code 2 for usage errors), before any session
restoration or remote call. -/
def usageErrorInvocation (e : VcdError) : Invocation :=
  { events := [], outLines := [], errLines := [e], exitCode := 2 }

/-- One leaf command of the `network` group, with its CLI-level arguments. -/
inductive Cmd where
  | externalCreate (cli : ExternalCreateCli)
  | externalList
  | externalDelete (name : String)
  | externalUpdate (name : String) (new_name new_description : Option String)
  | directCreate (cli : DirectCreateCli)
  | directList
  | directDelete (name : String) (force : Bool) (yes : Bool)
  | isolatedCreate (cli : IsolatedCreateCli)
  | isolatedList
  | isolatedDelete (name : String) (force : Bool) (yes : Bool)
deriving DecidableEq, Repr

/-- Full semantics of one command invocation: argument parsing (required-check,
defaults, confirmation gate) followed by the handler body. -/
def run (cmd : Cmd) (env : Env) : Invocation :=
  match cmd with
  | .externalCreate cli =>
    match parse_external_create cli with
    | .error e => usageErrorInvocation e
    | .ok _ =>
      create_external_network env cli.name cli.vc_name cli.port_group
        cli.gateway_ip cli.netmask cli.ip_range (cli.description.getD "")
        cli.primary_dns_ip cli.secondary_dns_ip cli.dns_suffix
  | .externalList => list_external_networks env
  | .externalDelete name => delete_external_network env name
  | .externalUpdate name new_name new_description =>
    update_external_network env name new_name new_description
  | .directCreate cli =>
    create_direct_network env cli.name cli.parent_network_name
      (cli.description.getD "") (cli.is_shared.getD false)
  | .directList => list_direct_networks env
  | .directDelete name force yes =>
    run_delete_gate env yes (delete_direct_networks env name force)
  | .isolatedCreate cli =>
    create_isolated_network env cli.name cli.gateway_ip cli.netmask
      (cli.description.getD "") cli.primary_dns_ip cli.secondary_dns_ip
      cli.dns_suffix cli.ip_range_start cli.ip_range_end
      (cli.is_dhcp_enabled.getD false) cli.default_lease_time
      cli.max_lease_time cli.dhcp_ip_range_start cli.dhcp_ip_range_end
      (cli.is_shared.getD false)
  | .isolatedList => list_isolated_networks env
  | .isolatedDelete name force yes =>
    run_delete_gate env yes (delete_isolated_networks env name force)

/-- The commands scoped to the selected virtual datacenter: they call
`restore_session` with `vdc_required=True`. -/
def Cmd.vdcScoped : Cmd → Bool
  | .directCreate _ => true
  | .directList => true
  | .directDelete _ _ _ => true
  | .isolatedCreate _ => true
  | .isolatedList => true
  | .isolatedDelete _ _ _ => true
  | _ => false

/-- Whether the confirmation gate lets the invocation reach the handler body:
relevant only for the direct and isolated delete commands. -/
def confirmationGiven (cmd : Cmd) (env : Env) : Bool :=
  match cmd with
  | .directDelete _ _ yes => yes || env.promptAnswer
  | .isolatedDelete _ _ yes => yes || env.promptAnswer
  | _ => true

/-- A concrete environment in which every remote call succeeds, the session is
valid, a virtual datacenter is selected, and the interactive answer is
affirmative. -/
def remoteOk : Env :=
  { sessionValid := true, vdc_href := some "vdc-href-1", promptAnswer := true,
    create_directly_connected_vdc_network := fun _ => .ok "task-dc",
    create_isolated_vdc_network := fun _ => .ok "task-iso",
    create_external_network := fun _ => .ok "task-ext",
    list_external_networks := .ok [],
    list_orgvdc_direct_networks := .ok [],
    list_orgvdc_isolated_networks := .ok [],
    delete_direct_orgvdc_network := fun _ _ => .ok "task-dd",
    delete_isolated_orgvdc_network := fun _ _ => .ok "task-di",
    delete_external_network := fun _ => .ok "task-de",
    update_external_network := fun _ _ _ => .ok "task-ue" }

/-- Like `remoteOk` but the interactive answer is negative. -/
def envDecline : Env := { remoteOk with promptAnswer := false }

/-- Like `remoteOk` but no virtual datacenter is selected. -/
def envNoVdc : Env := { remoteOk with vdc_href := none }

/-- Concrete arguments for `external create` with two port groups and two IP
ranges, in command line order. -/
def ecli1 : ExternalCreateCli :=
  { name := "ext-net-1", vc_name := "vc1", port_group := ["pg1", "pg2"],
    gateway_ip := "192.168.1.1", netmask := "255.255.255.0",
    ip_range := ["192.168.1.2-192.168.1.49", "192.168.1.100-192.168.1.149"],
    description := none, primary_dns_ip := none, secondary_dns_ip := none,
    dns_suffix := none }

/-- Concrete arguments for `external create` with zero `--port-group`
occurrences. -/
def ecliNoPortGroup : ExternalCreateCli := { ecli1 with port_group := [] }

/-- Concrete arguments for `direct create` with every optional flag
omitted. -/
def dcli1 : DirectCreateCli :=
  { name := "direct-net-1", parent_network_name := "ext-net-1",
    description := none, is_shared := none }

/-- Concrete arguments for `isolated create` with every optional flag
omitted. -/
def icli1 : IsolatedCreateCli :=
  { name := "iso-net-1", gateway_ip := "192.168.2.1",
    netmask := "255.255.255.0", description := none, primary_dns_ip := none,
    secondary_dns_ip := none, dns_suffix := none, ip_range_start := none,
    ip_range_end := none, is_dhcp_enabled := none, default_lease_time := none,
    max_lease_time := none, dhcp_ip_range_start := none,
    dhcp_ip_range_end := none, is_shared := none }

/-- Shape invariant of every invocation result: either success (exit status 0
and an empty error stream) or a caught failure (non-zero exit status, exactly
one error line, and nothing on the success output stream). -/
def Invocation.wellFormed (inv : Invocation) : Prop :=
  (inv.exitCode = 0 ∧ inv.errLines = []) ∨
  (inv.exitCode ≠ 0 ∧ inv.errLines.length = 1 ∧ inv.outLines = [])

theorem stderrInvocation_wellFormed (evs : List Event) (e : VcdError) :
    (stderrInvocation evs e).wellFormed := by
  simp [Invocation.wellFormed, stderrInvocation]

theorem create_direct_network_wellFormed (env : Env) (n p d : String)
    (s : Bool) : (create_direct_network env n p d s).wellFormed := by
  unfold create_direct_network
  split
  · exact stderrInvocation_wellFormed _ _
  · dsimp only
    split
    · exact stderrInvocation_wellFormed _ _
    · simp [Invocation.wellFormed]

theorem create_isolated_network_wellFormed (env : Env) (n g m d : String)
    (p1 p2 ds irs ire : Option String) (dh : Bool)
    (dl ml ds2 de2 : Option String) (sh : Bool) :
    (create_isolated_network env n g m d p1 p2 ds irs ire dh dl ml ds2 de2
      sh).wellFormed := by
  unfold create_isolated_network
  split
  · exact stderrInvocation_wellFormed _ _
  · dsimp only
    split
    · exact stderrInvocation_wellFormed _ _
    · simp [Invocation.wellFormed]

theorem create_external_network_wellFormed (env : Env) (n vc : String)
    (pg : List String) (g m : String) (ir : List String) (d : String)
    (p1 p2 ds : Option String) :
    (create_external_network env n vc pg g m ir d p1 p2 ds).wellFormed := by
  unfold create_external_network
  split
  · exact stderrInvocation_wellFormed _ _
  · dsimp only
    split
    · exact stderrInvocation_wellFormed _ _
    · simp [Invocation.wellFormed]

theorem list_external_networks_wellFormed (env : Env) :
    (list_external_networks env).wellFormed := by
  unfold list_external_networks
  split
  · exact stderrInvocation_wellFormed _ _
  · split
    · exact stderrInvocation_wellFormed _ _
    · simp [Invocation.wellFormed]

theorem list_direct_networks_wellFormed (env : Env) :
    (list_direct_networks env).wellFormed := by
  unfold list_direct_networks
  split
  · exact stderrInvocation_wellFormed _ _
  · split
    · exact stderrInvocation_wellFormed _ _
    · simp [Invocation.wellFormed]

theorem list_isolated_networks_wellFormed (env : Env) :
    (list_isolated_networks env).wellFormed := by
  unfold list_isolated_networks
  split
  · exact stderrInvocation_wellFormed _ _
  · split
    · exact stderrInvocation_wellFormed _ _
    · simp [Invocation.wellFormed]

theorem delete_direct_networks_wellFormed (env : Env) (n : String)
    (f : Bool) : (delete_direct_networks env n f).wellFormed := by
  unfold delete_direct_networks
  split
  · exact stderrInvocation_wellFormed _ _
  · split
    · exact stderrInvocation_wellFormed _ _
    · simp [Invocation.wellFormed]

theorem delete_isolated_networks_wellFormed (env : Env) (n : String)
    (f : Bool) : (delete_isolated_networks env n f).wellFormed := by
  unfold delete_isolated_networks
  split
  · exact stderrInvocation_wellFormed _ _
  · split
    · exact stderrInvocation_wellFormed _ _
    · simp [Invocation.wellFormed]

theorem delete_external_network_wellFormed (env : Env) (n : String) :
    (delete_external_network env n).wellFormed := by
  unfold delete_external_network
  split
  · exact stderrInvocation_wellFormed _ _
  · split
    · exact stderrInvocation_wellFormed _ _
    · simp [Invocation.wellFormed]

theorem update_external_network_wellFormed (env : Env) (n : String)
    (nn nd : Option String) :
    (update_external_network env n nn nd).wellFormed := by
  unfold update_external_network
  split
  · exact stderrInvocation_wellFormed _ _
  · split
    · exact stderrInvocation_wellFormed _ _
    · simp [Invocation.wellFormed]

theorem run_delete_gate_wellFormed (env : Env) (yes : Bool)
    (inv : Invocation) (h : inv.wellFormed) :
    (run_delete_gate env yes inv).wellFormed := by
  unfold run_delete_gate
  split
  · exact h
  · split
    · exact h
    · simp [Invocation.wellFormed]

theorem usageErrorInvocation_wellFormed (e : VcdError) :
    (usageErrorInvocation e).wellFormed := by
  simp [Invocation.wellFormed, usageErrorInvocation]

theorem run_wellFormed (cmd : Cmd) (env : Env) : (run cmd env).wellFormed := by
  cases cmd with
  | externalCreate cli =>
    simp only [run]
    split
    · exact usageErrorInvocation_wellFormed _
    · exact create_external_network_wellFormed env _ _ _ _ _ _ _ _ _ _
  | externalList => exact list_external_networks_wellFormed env
  | externalDelete name => exact delete_external_network_wellFormed env name
  | externalUpdate name nn nd =>
    exact update_external_network_wellFormed env name nn nd
  | directCreate cli => exact create_direct_network_wellFormed env _ _ _ _
  | directList => exact list_direct_networks_wellFormed env
  | directDelete name force yes =>
    exact run_delete_gate_wellFormed env yes _
      (delete_direct_networks_wellFormed env name force)
  | isolatedCreate cli =>
    exact create_isolated_network_wellFormed env _ _ _ _ _ _ _ _ _ _ _ _ _ _ _
  | isolatedList => exact list_isolated_networks_wellFormed env
  | isolatedDelete name force yes =>
    exact run_delete_gate_wellFormed env yes _
      (delete_isolated_networks_wellFormed env name force)

/-- C7: for every leaf operation and every environment, either the invocation
succeeds with exit status 0 and an empty error stream, or the failure is
caught at the command boundary and reported as exactly one single-line message
on the error stream together with a non-zero exit status; no exception
propagates past the boundary (`run` is a total function). -/
theorem C7_failures_caught_at_boundary (cmd : Cmd) (env : Env) :
    ((run cmd env).exitCode = 0 ∧ (run cmd env).errLines = []) ∨
    ((run cmd env).exitCode ≠ 0 ∧ (run cmd env).errLines.length = 1) := by
  rcases run_wellFormed cmd env with h | h
  · exact Or.inl h
  · exact Or.inr ⟨h.1, h.2.1⟩

/-- C9: for every leaf operation, if anything was written to the error stream
(session restoration or the remote call failed), then nothing was written to
the success output stream and the error stream holds exactly the single
message. -/
theorem C9_no_success_output_on_failure (cmd : Cmd) (env : Env)
    (h : (run cmd env).errLines ≠ []) :
    (run cmd env).outLines = [] ∧ (run cmd env).errLines.length = 1 := by
  rcases run_wellFormed cmd env with hw | hw
  · exact absurd hw.2 h
  · exact ⟨hw.2.2, hw.2.1⟩

/-- Witness for C9: with no virtual datacenter selected, `direct list` fails,
and indeed writes nothing to the success output stream and exactly one error
line. -/
theorem C9_witness :
    (run Cmd.directList envNoVdc).outLines = [] ∧
    (run Cmd.directList envNoVdc).errLines.length = 1 :=
  C9_no_success_output_on_failure Cmd.directList envNoVdc (by decide)

theorem restore_session_ok_vdc (env : Env) (hs : env.sessionValid = true)
    (v : String) (hv : env.vdc_href = some v) :
    restore_session env true = Except.ok () := by
  simp [restore_session, hs, hv]

theorem restore_session_ok_sys (env : Env) (hs : env.sessionValid = true) :
    restore_session env false = Except.ok () := by
  simp [restore_session, hs]

theorem restore_session_no_vdc (env : Env) (hs : env.sessionValid = true)
    (hv : env.vdc_href = none) :
    restore_session env true = Except.error VcdError.noVdcSelected := by
  simp [restore_session, hs, hv]

theorem delete_direct_networks_events (env : Env) (name : String)
    (force : Bool) (hs : env.sessionValid = true) (v : String)
    (hv : env.vdc_href = some v) :
    (delete_direct_networks env name force).events =
      [Event.sessionRestore true,
       Event.remote (RemoteCall.deleteDirect name force)] := by
  unfold delete_direct_networks
  rw [restore_session_ok_vdc env hs v hv]
  dsimp only
  split <;> simp [stderrInvocation]

theorem delete_isolated_networks_events (env : Env) (name : String)
    (force : Bool) (hs : env.sessionValid = true) (v : String)
    (hv : env.vdc_href = some v) :
    (delete_isolated_networks env name force).events =
      [Event.sessionRestore true,
       Event.remote (RemoteCall.deleteIsolated name force)] := by
  unfold delete_isolated_networks
  rw [restore_session_ok_vdc env hs v hv]
  dsimp only
  split <;> simp [stderrInvocation]

theorem delete_external_network_events (env : Env) (name : String)
    (hs : env.sessionValid = true) :
    (delete_external_network env name).events =
      [Event.sessionRestore false,
       Event.remote (RemoteCall.deleteExternal name)] := by
  unfold delete_external_network
  rw [restore_session_ok_sys env hs]
  dsimp only
  split <;> simp [stderrInvocation]

theorem delete_direct_networks_prompted (env : Env) (name : String)
    (force : Bool) : (delete_direct_networks env name force).prompted = false := by
  unfold delete_direct_networks
  split
  · simp [stderrInvocation, Invocation.prompted]
  · dsimp only
    split <;> simp [stderrInvocation, Invocation.prompted]

theorem delete_isolated_networks_prompted (env : Env) (name : String)
    (force : Bool) :
    (delete_isolated_networks env name force).prompted = false := by
  unfold delete_isolated_networks
  split
  · simp [stderrInvocation, Invocation.prompted]
  · dsimp only
    split <;> simp [stderrInvocation, Invocation.prompted]

theorem delete_external_network_prompted (env : Env) (name : String) :
    (delete_external_network env name).prompted = false := by
  unfold delete_external_network
  split
  · simp [stderrInvocation, Invocation.prompted]
  · dsimp only
    split <;> simp [stderrInvocation, Invocation.prompted]

theorem create_direct_network_calls (env : Env) (n p d : String) (s : Bool)
    (hs : env.sessionValid = true) (v : String) (hv : env.vdc_href = some v) :
    (create_direct_network env n p d s).remoteCalls =
      [RemoteCall.createDirect
        { network_name := n, parent_network_name := p, description := d,
          is_shared := s }] := by
  unfold create_direct_network
  rw [restore_session_ok_vdc env hs v hv]
  dsimp only
  split <;> simp [stderrInvocation, Invocation.remoteCalls]

theorem create_isolated_network_calls (env : Env) (n g m d : String)
    (p1 p2 ds irs ire : Option String) (dh : Bool)
    (dl ml ds2 de2 : Option String) (sh : Bool)
    (hs : env.sessionValid = true) (v : String) (hv : env.vdc_href = some v) :
    (create_isolated_network env n g m d p1 p2 ds irs ire dh dl ml ds2 de2
      sh).remoteCalls =
      [RemoteCall.createIsolated
        { network_name := n, gateway_ip := g, netmask := m, description := d,
          primary_dns_ip := p1, secondary_dns_ip := p2, dns_suffix := ds,
          ip_range_start := irs, ip_range_end := ire, is_dhcp_enabled := dh,
          default_lease_time := dl, max_lease_time := ml,
          dhcp_ip_range_start := ds2, dhcp_ip_range_end := de2,
          is_shared := sh }] := by
  unfold create_isolated_network
  rw [restore_session_ok_vdc env hs v hv]
  dsimp only
  split <;> simp [stderrInvocation, Invocation.remoteCalls]

theorem create_external_network_calls (env : Env) (n vc : String)
    (pg : List String) (g m : String) (ir : List String) (d : String)
    (p1 p2 ds : Option String) (hs : env.sessionValid = true) :
    (create_external_network env n vc pg g m ir d p1 p2 ds).remoteCalls =
      [RemoteCall.createExternal
        { name := n, vim_server_name := vc, port_group_names := pg,
          gateway_ip := g, netmask := m, ip_ranges := ir, description := d,
          primary_dns_ip := p1, secondary_dns_ip := p2,
          dns_suffix := ds }] := by
  unfold create_external_network
  rw [restore_session_ok_sys env hs]
  dsimp only
  split <;> simp [stderrInvocation, Invocation.remoteCalls]

/-- C1 counterexample: `external delete` has no confirmation option in the
source. With a negative interactive answer (`envDecline.promptAnswer = false`)
and no override flag supplied, the invocation never prompts, still issues the
remote delete call, and completes with exit status 0 — refuting the claim that
every delete operation obtains affirmative confirmation before the remote
call. -/
theorem C1_counterexample :
    envDecline.promptAnswer = false ∧
    (run (Cmd.externalDelete "ext-net-1") envDecline).prompted = false ∧
    (run (Cmd.externalDelete "ext-net-1") envDecline).remoteCalls =
      [RemoteCall.deleteExternal "ext-net-1"] ∧
    (run (Cmd.externalDelete "ext-net-1") envDecline).exitCode = 0 :=
  ⟨rfl, rfl, rfl, rfl⟩

/-- C1 (amended): for `direct delete` and `isolated delete`, when `--yes` is
not supplied the invoker obtains interactive confirmation; a negative response
aborts with no remote call and exit status 0, and an affirmative response (or
`--yes`) issues exactly one remote delete call. `external delete` has no
confirmation gate: it issues its single remote delete call without
prompting. -/
theorem C1_delete_confirmation (env : Env) (name : String) (force : Bool)
    (v : String) (hs : env.sessionValid = true)
    (hv : env.vdc_href = some v) :
    (run (Cmd.directDelete name force false) env).prompted = true ∧
    (run (Cmd.isolatedDelete name force false) env).prompted = true ∧
    ((run (Cmd.directDelete name force false)
        { env with promptAnswer := false }).remoteCalls = [] ∧
     (run (Cmd.directDelete name force false)
        { env with promptAnswer := false }).exitCode = 0) ∧
    ((run (Cmd.isolatedDelete name force false)
        { env with promptAnswer := false }).remoteCalls = [] ∧
     (run (Cmd.isolatedDelete name force false)
        { env with promptAnswer := false }).exitCode = 0) ∧
    (run (Cmd.directDelete name force false)
        { env with promptAnswer := true }).remoteCalls =
      [RemoteCall.deleteDirect name force] ∧
    (run (Cmd.isolatedDelete name force false)
        { env with promptAnswer := true }).remoteCalls =
      [RemoteCall.deleteIsolated name force] ∧
    (run (Cmd.directDelete name force true) env).remoteCalls =
      [RemoteCall.deleteDirect name force] ∧
    (run (Cmd.isolatedDelete name force true) env).remoteCalls =
      [RemoteCall.deleteIsolated name force] ∧
    (run (Cmd.externalDelete name) env).prompted = false ∧
    (run (Cmd.externalDelete name) env).remoteCalls =
      [RemoteCall.deleteExternal name] := by
  have hdd := delete_direct_networks_events
    { env with promptAnswer := true } name force hs v hv
  have hdi := delete_isolated_networks_events
    { env with promptAnswer := true } name force hs v hv
  have hddy := delete_direct_networks_events env name force hs v hv
  have hdiy := delete_isolated_networks_events env name force hs v hv
  have hde := delete_external_network_events env name hs
  refine ⟨?_, ?_, ⟨?_, ?_⟩, ⟨?_, ?_⟩, ?_, ?_, ?_, ?_, ?_, ?_⟩
  · cases hpa : env.promptAnswer <;>
      simp [run, run_delete_gate, hpa, Invocation.prompted]
  · cases hpa : env.promptAnswer <;>
      simp [run, run_delete_gate, hpa, Invocation.prompted]
  · simp [run, run_delete_gate, Invocation.remoteCalls]
  · simp [run, run_delete_gate]
  · simp [run, run_delete_gate, Invocation.remoteCalls]
  · simp [run, run_delete_gate]
  · simp [run, run_delete_gate, Invocation.remoteCalls, hdd]
  · simp [run, run_delete_gate, Invocation.remoteCalls, hdi]
  · simp [run, run_delete_gate, Invocation.remoteCalls, hddy]
  · simp [run, run_delete_gate, Invocation.remoteCalls, hdiy]
  · simp [run, delete_external_network_prompted]
  · simp [run, Invocation.remoteCalls, hde]

/-- Witness for C1: in a concrete environment the amended theorem applies; the
external delete issues its one remote delete call with no prompt. -/
theorem C1_witness :
    (run (Cmd.externalDelete "net-a") remoteOk).prompted = false ∧
    (run (Cmd.externalDelete "net-a") remoteOk).remoteCalls =
      [RemoteCall.deleteExternal "net-a"] :=
  ⟨(C1_delete_confirmation remoteOk "net-a" false "vdc-href-1" rfl
      rfl).2.2.2.2.2.2.2.2.1,
   (C1_delete_confirmation remoteOk "net-a" false "vdc-href-1" rfl
      rfl).2.2.2.2.2.2.2.2.2⟩

/-- C2: every operation scoped to the selected virtual datacenter (direct and
isolated create, list and delete), invoked with a valid session but no
selected virtual datacenter (and, for the deletes, past the confirmation
gate), fails with `NoVdcSelected` as its single error line, issues no remote
call, and exits non-zero. -/
theorem C2_no_vdc_selected (cmd : Cmd) (env : Env)
    (hscope : cmd.vdcScoped = true)
    (hs : env.sessionValid = true)
    (hv : env.vdc_href = none)
    (hc : confirmationGiven cmd env = true) :
    (run cmd env).errLines = [VcdError.noVdcSelected] ∧
    (run cmd env).remoteCalls = [] ∧
    (run cmd env).exitCode ≠ 0 := by
  have hrs := restore_session_no_vdc env hs hv
  cases cmd with
  | externalCreate cli => simp [Cmd.vdcScoped] at hscope
  | externalList => simp [Cmd.vdcScoped] at hscope
  | externalDelete name => simp [Cmd.vdcScoped] at hscope
  | externalUpdate name nn nd => simp [Cmd.vdcScoped] at hscope
  | directCreate cli =>
    refine ⟨?_, ?_, ?_⟩ <;>
      simp [run, create_direct_network, hrs, stderrInvocation,
        Invocation.remoteCalls]
  | directList =>
    refine ⟨?_, ?_, ?_⟩ <;>
      simp [run, list_direct_networks, hrs, stderrInvocation,
        Invocation.remoteCalls]
  | directDelete name force yes =>
    cases yes with
    | true =>
      refine ⟨?_, ?_, ?_⟩ <;>
        simp [run, run_delete_gate, delete_direct_networks, hrs,
          stderrInvocation, Invocation.remoteCalls]
    | false =>
      have hpa : env.promptAnswer = true := by
        simpa [confirmationGiven] using hc
      refine ⟨?_, ?_, ?_⟩ <;>
        simp [run, run_delete_gate, hpa, delete_direct_networks, hrs,
          stderrInvocation, Invocation.remoteCalls]
  | isolatedCreate cli =>
    refine ⟨?_, ?_, ?_⟩ <;>
      simp [run, create_isolated_network, hrs, stderrInvocation,
        Invocation.remoteCalls]
  | isolatedList =>
    refine ⟨?_, ?_, ?_⟩ <;>
      simp [run, list_isolated_networks, hrs, stderrInvocation,
        Invocation.remoteCalls]
  | isolatedDelete name force yes =>
    cases yes with
    | true =>
      refine ⟨?_, ?_, ?_⟩ <;>
        simp [run, run_delete_gate, delete_isolated_networks, hrs,
          stderrInvocation, Invocation.remoteCalls]
    | false =>
      have hpa : env.promptAnswer = true := by
        simpa [confirmationGiven] using hc
      refine ⟨?_, ?_, ?_⟩ <;>
        simp [run, run_delete_gate, hpa, delete_isolated_networks, hrs,
          stderrInvocation, Invocation.remoteCalls]

/-- Witness for C2: `direct list` with no virtual datacenter selected fails
with `NoVdcSelected`, issues no remote call and exits non-zero. -/
theorem C2_witness :
    Cmd.directList.vdcScoped = true ∧
    envNoVdc.sessionValid = true ∧
    envNoVdc.vdc_href = none ∧
    confirmationGiven Cmd.directList envNoVdc = true ∧
    ((run Cmd.directList envNoVdc).errLines = [VcdError.noVdcSelected] ∧
     (run Cmd.directList envNoVdc).remoteCalls = [] ∧
     (run Cmd.directList envNoVdc).exitCode ≠ 0) :=
  ⟨rfl, rfl, rfl, rfl, C2_no_vdc_selected Cmd.directList envNoVdc rfl rfl rfl rfl⟩

/-- C3: `external create` with zero `--port-group` occurrences or zero
`--ip-range` occurrences fails with a validation error as its single error
line, exits non-zero, and issues no remote call (indeed produces no event at
all: the usage error precedes the handler body). -/
theorem C3_external_create_requires_repeatables (cli : ExternalCreateCli)
    (env : Env) (h : cli.port_group = [] ∨ cli.ip_range = []) :
    (∃ opt, (run (Cmd.externalCreate cli) env).errLines =
      [VcdError.validationError opt]) ∧
    (run (Cmd.externalCreate cli) env).remoteCalls = [] ∧
    (run (Cmd.externalCreate cli) env).exitCode ≠ 0 := by
  by_cases hpg : cli.port_group = []
  · refine ⟨⟨"--port-group", ?_⟩, ?_, ?_⟩ <;>
      simp [run, parse_external_create, hpg, usageErrorInvocation,
        Invocation.remoteCalls]
  · have hir : cli.ip_range = [] := h.resolve_left hpg
    refine ⟨⟨"--ip-range", ?_⟩, ?_, ?_⟩ <;>
      simp [run, parse_external_create, hpg, hir, usageErrorInvocation,
        Invocation.remoteCalls]

/-- Witness for C3: the concrete `external create` invocation with zero
`--port-group` occurrences fails with a validation error and no remote
call. -/
theorem C3_witness :
    (ecliNoPortGroup.port_group = [] ∨ ecliNoPortGroup.ip_range = []) ∧
    ((∃ opt, (run (Cmd.externalCreate ecliNoPortGroup) remoteOk).errLines =
        [VcdError.validationError opt]) ∧
     (run (Cmd.externalCreate ecliNoPortGroup) remoteOk).remoteCalls = [] ∧
     (run (Cmd.externalCreate ecliNoPortGroup) remoteOk).exitCode ≠ 0) :=
  ⟨Or.inl rfl,
   C3_external_create_requires_repeatables ecliNoPortGroup remoteOk
     (Or.inl rfl)⟩

/-- C8: for `direct delete` and `isolated delete` the prompt is controlled
solely by `--yes`: without `--yes` the prompt is the first event regardless of
`--force`; a negative answer aborts during argument parsing with exit status 0
and no session restoration or remote contact; with `--yes` no prompt is
shown. -/
theorem C8_prompt_solely_by_yes (env : Env) (name : String) (force : Bool) :
    (∃ rest, (run (Cmd.directDelete name force false) env).events =
      Event.prompt confirmPromptText :: rest) ∧
    (∃ rest, (run (Cmd.isolatedDelete name force false) env).events =
      Event.prompt confirmPromptText :: rest) ∧
    (env.promptAnswer = false →
      run (Cmd.directDelete name force false) env =
        { events := [Event.prompt confirmPromptText], outLines := [],
          errLines := [], exitCode := 0 } ∧
      run (Cmd.isolatedDelete name force false) env =
        { events := [Event.prompt confirmPromptText], outLines := [],
          errLines := [], exitCode := 0 }) ∧
    (run (Cmd.directDelete name force true) env).prompted = false ∧
    (run (Cmd.isolatedDelete name force true) env).prompted = false := by
  refine ⟨?_, ?_, ?_, ?_, ?_⟩
  · cases hpa : env.promptAnswer with
    | false => exact ⟨[], by simp [run, run_delete_gate, hpa]⟩
    | true =>
      exact ⟨(delete_direct_networks env name force).events,
        by simp [run, run_delete_gate, hpa]⟩
  · cases hpa : env.promptAnswer with
    | false => exact ⟨[], by simp [run, run_delete_gate, hpa]⟩
    | true =>
      exact ⟨(delete_isolated_networks env name force).events,
        by simp [run, run_delete_gate, hpa]⟩
  · intro hpa
    constructor <;> simp [run, run_delete_gate, hpa]
  · simp [run, run_delete_gate, delete_direct_networks_prompted]
  · simp [run, run_delete_gate, delete_isolated_networks_prompted]

/-- Witness for C8: with a negative interactive answer and `--force` supplied
but not `--yes`, both org vdc network deletes abort right after the prompt with
exit status 0 and an empty event trail beyond the prompt. -/
theorem C8_witness :
    run (Cmd.directDelete "net-a" true false) envDecline =
      { events := [Event.prompt confirmPromptText], outLines := [],
        errLines := [], exitCode := 0 } ∧
    run (Cmd.isolatedDelete "net-a" true false) envDecline =
      { events := [Event.prompt confirmPromptText], outLines := [],
        errLines := [], exitCode := 0 } :=
  (C8_prompt_solely_by_yes envDecline "net-a" true).2.2.1 rfl

/-- C4: each create operation, given syntactically valid required arguments,
issues exactly one remote create call whose request payload equals the parsed
CLI arguments field-for-field; the repeated `--port-group` and `--ip-range`
values appear in the request in command line order, and omitted optionals take
their parse-time defaults. -/
theorem C4_create_forwards_arguments (env : Env) (v : String)
    (hs : env.sessionValid = true) (hv : env.vdc_href = some v)
    (ecli : ExternalCreateCli) (dcli : DirectCreateCli)
    (icli : IsolatedCreateCli)
    (hpg : ecli.port_group ≠ []) (hir : ecli.ip_range ≠ []) :
    (run (Cmd.externalCreate ecli) env).remoteCalls =
      [RemoteCall.createExternal
        { name := ecli.name, vim_server_name := ecli.vc_name,
          port_group_names := ecli.port_group,
          gateway_ip := ecli.gateway_ip, netmask := ecli.netmask,
          ip_ranges := ecli.ip_range,
          description := ecli.description.getD "",
          primary_dns_ip := ecli.primary_dns_ip,
          secondary_dns_ip := ecli.secondary_dns_ip,
          dns_suffix := ecli.dns_suffix }] ∧
    (run (Cmd.directCreate dcli) env).remoteCalls =
      [RemoteCall.createDirect
        { network_name := dcli.name,
          parent_network_name := dcli.parent_network_name,
          description := dcli.description.getD "",
          is_shared := dcli.is_shared.getD false }] ∧
    (run (Cmd.isolatedCreate icli) env).remoteCalls =
      [RemoteCall.createIsolated
        { network_name := icli.name, gateway_ip := icli.gateway_ip,
          netmask := icli.netmask,
          description := icli.description.getD "",
          primary_dns_ip := icli.primary_dns_ip,
          secondary_dns_ip := icli.secondary_dns_ip,
          dns_suffix := icli.dns_suffix,
          ip_range_start := icli.ip_range_start,
          ip_range_end := icli.ip_range_end,
          is_dhcp_enabled := icli.is_dhcp_enabled.getD false,
          default_lease_time := icli.default_lease_time,
          max_lease_time := icli.max_lease_time,
          dhcp_ip_range_start := icli.dhcp_ip_range_start,
          dhcp_ip_range_end := icli.dhcp_ip_range_end,
          is_shared := icli.is_shared.getD false }] := by
  refine ⟨?_, ?_, ?_⟩
  · have h := create_external_network_calls env ecli.name ecli.vc_name
      ecli.port_group ecli.gateway_ip ecli.netmask ecli.ip_range
      (ecli.description.getD "") ecli.primary_dns_ip ecli.secondary_dns_ip
      ecli.dns_suffix hs
    simpa [run, parse_external_create, hpg, hir] using h
  · have h := create_direct_network_calls env dcli.name
      dcli.parent_network_name (dcli.description.getD "")
      (dcli.is_shared.getD false) hs v hv
    simpa [run] using h
  · have h := create_isolated_network_calls env icli.name icli.gateway_ip
      icli.netmask (icli.description.getD "") icli.primary_dns_ip
      icli.secondary_dns_ip icli.dns_suffix icli.ip_range_start
      icli.ip_range_end (icli.is_dhcp_enabled.getD false)
      icli.default_lease_time icli.max_lease_time icli.dhcp_ip_range_start
      icli.dhcp_ip_range_end (icli.is_shared.getD false) hs v hv
    simpa [run] using h

/-- Witness for C4: the concrete `direct create` invocation issues exactly its
one remote create call with the parsed arguments. -/
theorem C4_witness :
    (run (Cmd.directCreate dcli1) remoteOk).remoteCalls =
      [RemoteCall.createDirect
        { network_name := dcli1.name,
          parent_network_name := dcli1.parent_network_name,
          description := dcli1.description.getD "",
          is_shared := dcli1.is_shared.getD false }] :=
  (C4_create_forwards_arguments remoteOk "vdc-href-1" rfl rfl ecli1 dcli1
    icli1 (by decide) (by decide)).2.1

/-- C5: `external update` with only `--description` supplied forwards the
unchanged network name together with the new description (no replacement name
is sent) and succeeds; with neither optional field supplied the call still
succeeds, forwarding the name with no new values (a no-op update, not a
destructive replace). Exactly one remote update call is issued in each
case. -/
theorem C5_update_forwards_unchanged (env : Env) (name d t1 t2 : String)
    (hs : env.sessionValid = true)
    (h1 : env.update_external_network name none (some d) = Except.ok t1)
    (h2 : env.update_external_network name none none = Except.ok t2) :
    (run (Cmd.externalUpdate name none (some d)) env).remoteCalls =
      [RemoteCall.updateExternal name none (some d)] ∧
    (run (Cmd.externalUpdate name none (some d)) env).exitCode = 0 ∧
    (run (Cmd.externalUpdate name none none) env).remoteCalls =
      [RemoteCall.updateExternal name none none] ∧
    (run (Cmd.externalUpdate name none none) env).exitCode = 0 := by
  have hrs := restore_session_ok_sys env hs
  refine ⟨?_, ?_, ?_, ?_⟩ <;>
    simp [run, update_external_network, hrs, h1, h2, stderrInvocation,
      Invocation.remoteCalls]

/-- Witness for C5: a concrete description-only update and a concrete no-op
update both succeed and forward the unchanged name. -/
theorem C5_witness :
    (run (Cmd.externalUpdate "ext-net-1" none (some "new desc"))
        remoteOk).remoteCalls =
      [RemoteCall.updateExternal "ext-net-1" none (some "new desc")] ∧
    (run (Cmd.externalUpdate "ext-net-1" none (some "new desc"))
        remoteOk).exitCode = 0 ∧
    (run (Cmd.externalUpdate "ext-net-1" none none) remoteOk).remoteCalls =
      [RemoteCall.updateExternal "ext-net-1" none none] ∧
    (run (Cmd.externalUpdate "ext-net-1" none none) remoteOk).exitCode = 0 :=
  C5_update_forwards_unchanged remoteOk "ext-net-1" "new desc" "task-ue"
    "task-ue" rfl rfl rfl

/-- C6: each list operation returns, on its single success output line, the
sequence of `{name}` records projected from the remote enumeration in the
remote-reported order, and exits 0; an empty remote enumeration yields an
empty sequence, not an error. -/
theorem C6_list_preserves_remote_order (env : Env) (v : String)
    (hs : env.sessionValid = true) (hv : env.vdc_href = some v)
    (ext dir iso : List RemoteRecord)
    (he : env.list_external_networks = Except.ok ext)
    (hd : env.list_orgvdc_direct_networks = Except.ok dir)
    (hi : env.list_orgvdc_isolated_networks = Except.ok iso) :
    ((run Cmd.externalList env).outLines =
      [OutLine.records (ext.map fun r => { name := r.name })] ∧
     (run Cmd.externalList env).exitCode = 0 ∧
     (run Cmd.externalList env).errLines = []) ∧
    ((run Cmd.directList env).outLines =
      [OutLine.records (dir.map fun r => { name := r.name })] ∧
     (run Cmd.directList env).exitCode = 0 ∧
     (run Cmd.directList env).errLines = []) ∧
    ((run Cmd.isolatedList env).outLines =
      [OutLine.records (iso.map fun r => { name := r.name })] ∧
     (run Cmd.isolatedList env).exitCode = 0 ∧
     (run Cmd.isolatedList env).errLines = []) := by
  have hrs1 := restore_session_ok_sys env hs
  have hrs2 := restore_session_ok_vdc env hs v hv
  refine ⟨⟨?_, ?_, ?_⟩, ⟨?_, ?_, ?_⟩, ⟨?_, ?_, ?_⟩⟩ <;>
    simp [run, list_external_networks, list_direct_networks,
      list_isolated_networks, hrs1, hrs2, he, hd, hi]

/-- Witness for C6: with an empty remote enumeration, `external list` prints
the empty record sequence and exits 0 with no error. -/
theorem C6_witness :
    (run Cmd.externalList remoteOk).outLines = [OutLine.records []] ∧
    (run Cmd.externalList remoteOk).exitCode = 0 ∧
    (run Cmd.externalList remoteOk).errLines = [] :=
  (C6_list_preserves_remote_order remoteOk "vdc-href-1" rfl rfl [] [] []
    rfl rfl rfl).1

/-- C10: for `direct create` and `isolated create` with the corresponding
flags omitted, the request payload carries the parse-time defaults — the empty
string as description (not an absent value) and `false` for the shared flag —
forwarded unchanged to the single remote create call. -/
theorem C10_create_defaults (env : Env) (v : String)
    (hs : env.sessionValid = true) (hv : env.vdc_href = some v)
    (dcli : DirectCreateCli) (icli : IsolatedCreateCli)
    (hd1 : dcli.description = none) (hd2 : dcli.is_shared = none)
    (hi1 : icli.description = none) (hi2 : icli.is_shared = none) :
    (run (Cmd.directCreate dcli) env).remoteCalls =
      [RemoteCall.createDirect
        { network_name := dcli.name,
          parent_network_name := dcli.parent_network_name,
          description := "", is_shared := false }] ∧
    (run (Cmd.isolatedCreate icli) env).remoteCalls =
      [RemoteCall.createIsolated
        { network_name := icli.name, gateway_ip := icli.gateway_ip,
          netmask := icli.netmask, description := "",
          primary_dns_ip := icli.primary_dns_ip,
          secondary_dns_ip := icli.secondary_dns_ip,
          dns_suffix := icli.dns_suffix,
          ip_range_start := icli.ip_range_start,
          ip_range_end := icli.ip_range_end,
          is_dhcp_enabled := icli.is_dhcp_enabled.getD false,
          default_lease_time := icli.default_lease_time,
          max_lease_time := icli.max_lease_time,
          dhcp_ip_range_start := icli.dhcp_ip_range_start,
          dhcp_ip_range_end := icli.dhcp_ip_range_end,
          is_shared := false }] := by
  constructor
  · have h := create_direct_network_calls env dcli.name
      dcli.parent_network_name (dcli.description.getD "")
      (dcli.is_shared.getD false) hs v hv
    simpa [run, hd1, hd2] using h
  · have h := create_isolated_network_calls env icli.name icli.gateway_ip
      icli.netmask (icli.description.getD "") icli.primary_dns_ip
      icli.secondary_dns_ip icli.dns_suffix icli.ip_range_start
      icli.ip_range_end (icli.is_dhcp_enabled.getD false)
      icli.default_lease_time icli.max_lease_time icli.dhcp_ip_range_start
      icli.dhcp_ip_range_end (icli.is_shared.getD false) hs v hv
    simpa [run, hi1, hi2] using h

/-- Witness for C10: the concrete `isolated create` invocation with every
optional flag omitted sends the empty description and an unshared network. -/
theorem C10_witness :
    (run (Cmd.isolatedCreate icli1) remoteOk).remoteCalls =
      [RemoteCall.createIsolated
        { network_name := icli1.name, gateway_ip := icli1.gateway_ip,
          netmask := icli1.netmask, description := "",
          primary_dns_ip := icli1.primary_dns_ip,
          secondary_dns_ip := icli1.secondary_dns_ip,
          dns_suffix := icli1.dns_suffix,
          ip_range_start := icli1.ip_range_start,
          ip_range_end := icli1.ip_range_end,
          is_dhcp_enabled := icli1.is_dhcp_enabled.getD false,
          default_lease_time := icli1.default_lease_time,
          max_lease_time := icli1.max_lease_time,
          dhcp_ip_range_start := icli1.dhcp_ip_range_start,
          dhcp_ip_range_end := icli1.dhcp_ip_range_end,
          is_shared := false }] :=
  (C10_create_defaults remoteOk "vdc-href-1" rfl rfl dcli1 icli1 rfl rfl rfl
    rfl).2
